import Mathlib

/-!
Shallow embedding of `scripts/generate_test_data.py`, the single script of the
`spinifex` repository.  The script synthesizes fake geospatial fixtures:
GeoJSON feature collections (points, lines, polygons), CSV tables, optional
shapefile and GeoTIFF outputs, and a zip archive, all driven by Python's
global `random` module.

Modelling conventions:
* Python floats are modelled as exact rationals (`Rat`); no claim under
  consideration depends on IEEE-754 rounding.
* Python's global `random` state is modelled as a `RandGen`: an abstract
  infinite stream of raw natural-number draws together with a cursor.  Each
  primitive of the `random` module consumes draws from the stream:
  `random()` (a float in `[0,1)`) is modelled as `(draw % 2^53) / 2^53`,
  mirroring CPython's 53-bit `random()`; `uniform a b = a + (b-a)*random()`
  is CPython's definition verbatim; `_randbelow n = draw % n`;
  `randint a b = a + _randbelow (b-a+1)`; `choice xs = xs[_randbelow len xs]`.
  `random.gauss mu sigma` is transcendental; it is modelled as consuming two
  unit draws and returning `mu + sigma*(u1+u2-1)` — no claim constrains the
  distribution of gauss, only that it draws from the shared state.
* `math.cos`, `math.sin` and `math.pi` are transcendental; they are modelled
  by computable rational stand-ins (`mcos`, `msin`, `ratPi`).  No claim
  depends on their values, only on the shape of the data built from them.
* File outputs are modelled as a list of `FileEntry` (base name, extension,
  content).  Binary encodings produced by third-party libraries that are not
  part of this repository (pyshp's .shp/.shx/.dbf records, rasterio's GeoTIFF
  encoding) are abstracted to constructors recording the data that the script
  hands to them; JSON is kept at the value level (`Json`), CSV as a header
  plus rows.
-/

/-- The state of Python's global `random` module, abstracted: an infinite
stream of raw draws and a cursor into it. -/
structure RandGen where
  stream : Nat → Nat
  idx : Nat

/-- Pull one raw draw and advance the cursor. -/
def RandGen.next (g : RandGen) : Nat × RandGen :=
  (g.stream g.idx, ⟨g.stream, g.idx + 1⟩)

/-- Return a value without consuming randomness. -/
def rpure {α : Type} (a : α) : RandGen → α × RandGen := fun g => (a, g)

/-- Sequence two computations over the shared random state. -/
def rbind {α β : Type} (x : RandGen → α × RandGen)
    (f : α → RandGen → β × RandGen) : RandGen → β × RandGen :=
  fun g => f (x g).1 (x g).2

/-- The constant `2^53`, the resolution of CPython's `random.random()`. -/
def M53 : Nat := 2 ^ 53

/-- Model of `random.random()`: a unit-interval value derived from one raw draw. -/
def randUnit : RandGen → Rat × RandGen :=
  rbind RandGen.next fun k => rpure (((k % M53 : Nat) : Rat) / (M53 : Rat))

/-- Model of `random.uniform(a, b) = a + (b-a)*random()` (CPython's definition). -/
def uniform (a b : Rat) : RandGen → Rat × RandGen :=
  rbind randUnit fun u => rpure (a + (b - a) * u)

/-- Model of `random._randbelow(n)`: an integer in `[0, n)` from one raw draw. -/
def randbelow (n : Nat) : RandGen → Nat × RandGen :=
  rbind RandGen.next fun k => rpure (k % n)

/-- Model of `random.randint(a, b)`: an integer in `[a, b]`. -/
def randint (a b : Int) : RandGen → Int × RandGen :=
  rbind (randbelow (b - a + 1).toNat) fun k => rpure (a + (k : Int))

/-- Model of `random.choice(xs)`: an element of `xs` at a random index.  The default
`d` is never used when `xs` is nonempty (the only way the script calls it);
Python raises `IndexError` on an empty sequence. -/
def choice {α : Type} (d : α) (xs : List α) : RandGen → α × RandGen :=
  rbind (randbelow xs.length) fun k => rpure (xs.getD k d)

/-- Model of `random.gauss(mu, sigma)`, abstracted: consumes two unit draws (CPython's
gauss calls `random()` twice) and returns a value depending on them; the
exact transcendental formula is irrelevant to every claim. -/
def gauss (mu sigma : Rat) : RandGen → Rat × RandGen :=
  rbind randUnit fun u1 => rbind randUnit fun u2 => rpure (mu + sigma * (u1 + u2 - 1))

/-- The exact rational value of the IEEE double `math.pi`. -/
def ratPi : Rat := 884279719003555 / 281474976710656

/-- Computable rational stand-in for `math.cos` (transcendental in Python;
no claim depends on its values). -/
def mcos (x : Rat) : Rat := 1 - x * x / 2

/-- Computable rational stand-in for `math.sin` (transcendental in Python;
no claim depends on its values). -/
def msin (x : Rat) : Rat := x - x * x * x / 6

/-- Python's `round(x, d)`: round half to even at `d` decimal places. -/
def roundHalfEven (x : Rat) : Int :=
  let f : Int := x.floor
  let r : Rat := x - (f : Rat)
  if r < 1/2 then f
  else if 1/2 < r then f + 1
  else if f % 2 = 0 then f else f + 1

/-- Python's `round(x, d)` at `d` decimal places, on our rational model of floats. -/
def roundTo (x : Rat) (d : Nat) : Rat :=
  (roundHalfEven (x * (10 ^ d : Nat)) : Rat) / ((10 ^ d : Nat) : Rat)

/-- Zero-pad a natural number to width `w`, as Python's `{:0wd}` format. -/
def padZeros (w : Nat) (n : Nat) : String :=
  let s := toString n
  String.mk (List.replicate (w - s.length) '0') ++ s

/-- Zero-pad a (nonnegative) integer, as used with `randint` results. -/
def padZerosI (w : Nat) (i : Int) : String := padZeros w i.toNat

/-- The region bounds dictionary `BOUNDS` of the script. -/
structure Bounds where
  minLon : Rat
  maxLon : Rat
  minLat : Rat
  maxLat : Rat

/-- The `BOUNDS` dict: Pilbara region bounds. -/
def BOUNDS : Bounds := { minLon := 116.5, maxLon := 118.5, minLat := -23.5, maxLat := -21.5 }

/-- Model of `random_point()`: a random `[lon, lat]` inside `BOUNDS`. -/
def random_point : RandGen → (Rat × Rat) × RandGen :=
  rbind (uniform BOUNDS.minLon BOUNDS.maxLon) fun lon =>
  rbind (uniform BOUNDS.minLat BOUNDS.maxLat) fun lat =>
  rpure (lon, lat)

/-- A property value of a feature: Python string, int or float. -/
inductive PValue where
  | s (v : String)
  | i (v : Int)
  | f (v : Rat)
deriving DecidableEq

/-- The coordinate payload of a GeoJSON geometry. -/
inductive Coords where
  | pt (c : Rat × Rat)
  | line (cs : List (Rat × Rat))
  | poly (rings : List (List (Rat × Rat)))
deriving DecidableEq

/-- A GeoJSON geometry dict: a `type` string and coordinates. -/
structure Geometry where
  type : String
  coordinates : Coords
deriving DecidableEq

/-- A GeoJSON feature dict. -/
structure Feature where
  type : String
  geometry : Geometry
  properties : List (String × PValue)
deriving DecidableEq

/-- A GeoJSON feature collection dict. -/
structure FeatureCollection where
  type : String
  features : List Feature
deriving DecidableEq

/-- A CSV row as produced by the generators: a Python dict in insertion
order. -/
abbrev Row := List (String × PValue)

/-- Dict access `row[k]` with a default, as used when serializing rows by field name. -/
def lookupD (r : Row) (k : String) (d : PValue) : PValue :=
  match r.find? (fun e => e.1 == k) with
  | some e => e.2
  | none => d

/-- Generate `k` items `f i g, f (i+1) g', ...`, threading the random state,
as a Python `for i in range(n)` loop accumulating a list. -/
def genFrom {α : Type} (f : Nat → RandGen → α × RandGen) :
    Nat → Nat → RandGen → List α × RandGen
  | _, 0 => rpure []
  | i, k + 1 =>
    rbind (f i) fun x =>
    rbind (genFrom f (i + 1) k) fun xs =>
    rpure (x :: xs)

/-- One ring vertex of `random_polygon(center, size, vertices)`. -/
def polyVertex (center : Rat × Rat) (size : Rat) (vertices : Nat) (i : Nat) :
    RandGen → (Rat × Rat) × RandGen :=
  rbind (uniform (-(3/10)) (3/10)) fun jitter =>
  rbind (uniform (1/2) 1) fun rr =>
  rpure
    (center.1 + size * rr * mcos ((2 * ratPi * i) / vertices + jitter),
     center.2 + size * rr * msin ((2 * ratPi * i) / vertices + jitter) * (7/10))

/-- Model of `random_polygon(center, size=0.1, vertices=6)`: a ring of `vertices`
random points around `center`, closed by repeating the first point.  (For
`vertices = 0` Python raises `IndexError` at `coords[0]`; the model returns
`[]` there, and the theorems carry `0 < vertices`.) -/
def random_polygon (center : Rat × Rat) (size : Rat) (vertices : Nat) :
    RandGen → List (Rat × Rat) × RandGen :=
  rbind (genFrom (polyVertex center size vertices) 0 vertices) fun coords =>
  rpure (match coords with
    | [] => []
    | c :: _ => coords ++ [c])

/-- The `rock_types` list of `generate_drillholes_geojson`. -/
def rock_types : List String := ["BIF", "Shale", "Dolerite", "Granite", "Laterite"]

/-- One iteration of the loop of `generate_drillholes_geojson`: a drillhole
point feature with assay-result properties.  Draw order follows Python's
evaluation order: the point, then `gauss`, then the dict values. -/
def mkDrillhole (i : Nat) : RandGen → Feature × RandGen :=
  rbind random_point fun point =>
  rbind (gauss 45 15) fun bf0 =>
  let base_fe := max 20 (min 68 bf0)
  rbind (randint 50 400) fun depth =>
  rbind (uniform 2 15) fun sio2 =>
  rbind (uniform 1 8) fun al2o3 =>
  rbind (uniform 2 12) fun loi =>
  rbind (choice "BIF" rock_types) fun rock =>
  rbind (randint 2018 2024) fun yr =>
  rpure
    { type := "Feature"
      geometry := { type := "Point", coordinates := .pt point }
      properties := [
        ("hole_id", .s ("DDH-" ++ padZeros 4 (i + 1))),
        ("depth_m", .i depth),
        ("fe_pct", .f (roundTo base_fe 2)),
        ("sio2_pct", .f (roundTo sio2 2)),
        ("al2o3_pct", .f (roundTo al2o3 2)),
        ("loi_pct", .f (roundTo loi 2)),
        ("rock_type", .s rock),
        ("year", .i yr)] }

/-- Model of `generate_drillholes_geojson(n=50)`. -/
def generate_drillholes_geojson (n : Nat) : RandGen → FeatureCollection × RandGen :=
  rbind (genFrom mkDrillhole 0 n) fun fs =>
  rpure { type := "FeatureCollection", features := fs }

/-- An entry of the `units` list of `generate_geology_geojson`. -/
structure GeolUnit where
  code : String
  name : String
  age_ma : Int
  color : String

/-- The `units` list of `generate_geology_geojson`. -/
def geology_units : List GeolUnit := [
  ⟨"BIF", "Banded Iron Formation", 2500, "#8B0000"⟩,
  ⟨"SHL", "Shale", 2450, "#556B2F"⟩,
  ⟨"DOL", "Dolerite", 2000, "#2F4F4F"⟩,
  ⟨"GRN", "Granite", 2700, "#FFB6C1"⟩,
  ⟨"LAT", "Laterite", 50, "#CD853F"⟩,
  ⟨"ALV", "Alluvium", 1, "#F5DEB3"⟩]

/-- One iteration of the loop of `generate_geology_geojson`: a geology
polygon feature. -/
def mkGeology (i : Nat) : RandGen → Feature × RandGen :=
  rbind random_point fun center =>
  rbind (choice ⟨"BIF", "Banded Iron Formation", 2500, "#8B0000"⟩ geology_units) fun unit =>
  rbind (uniform (15/100) (2/5)) fun sz =>
  rbind (random_polygon center sz 6) fun ring =>
  rbind (choice "High" ["High", "Medium", "Low"]) fun conf =>
  rpure
    { type := "Feature"
      geometry := { type := "Polygon", coordinates := .poly [ring] }
      properties := [
        ("unit_id", .i ((i : Int) + 1)),
        ("code", .s unit.code),
        ("name", .s unit.name),
        ("age_ma", .i unit.age_ma),
        ("color", .s unit.color),
        ("confidence", .s conf)] }

/-- Model of `generate_geology_geojson(n=15)`. -/
def generate_geology_geojson (n : Nat) : RandGen → FeatureCollection × RandGen :=
  rbind (genFrom mkGeology 0 n) fun fs =>
  rpure { type := "FeatureCollection", features := fs }

/-- The `tenement_types` list of `generate_tenements_geojson`. -/
def tenement_types : List String := ["Exploration", "Mining", "Prospecting", "Retention"]

/-- The `companies` list of `generate_tenements_geojson`. -/
def tenement_companies : List String :=
  ["Iron Ore Co", "Pilbara Mining", "Red Earth Resources", "Outback Minerals"]

/-- One iteration of the loop of `generate_tenements_geojson`: a rectangular
tenement polygon feature with administrative properties. -/
def mkTenement (_i : Nat) : RandGen → Feature × RandGen :=
  rbind random_point fun center =>
  rbind (uniform (1/5) (1/2)) fun size =>
  let coords : List (Rat × Rat) := [
    (center.1 - size, center.2 - size * (3/5)),
    (center.1 + size, center.2 - size * (3/5)),
    (center.1 + size, center.2 + size * (3/5)),
    (center.1 - size, center.2 + size * (3/5)),
    (center.1 - size, center.2 - size * (3/5))]
  rbind (randint 45 52) fun tid1 =>
  rbind (randint 1000 9999) fun tid2 =>
  rbind (choice "Exploration" tenement_types) fun ttype =>
  rbind (choice "Iron Ore Co" tenement_companies) fun holder =>
  rbind (randint 2010 2023) fun gy =>
  rbind (randint 1 12) fun gm =>
  rbind (randint 1 28) fun gd =>
  rbind (choice "Active" ["Active", "Active", "Active", "Pending"]) fun status =>
  rpure
    { type := "Feature"
      geometry := { type := "Polygon", coordinates := .poly [coords] }
      properties := [
        ("tenement_id", .s ("E" ++ toString tid1 ++ "/" ++ toString tid2)),
        ("type", .s ttype),
        ("holder", .s holder),
        ("area_km2", .f (roundTo (size * size * 111 * 111 * (3/5)) 1)),
        ("granted", .s (toString gy ++ "-" ++ padZerosI 2 gm ++ "-" ++ padZerosI 2 gd)),
        ("status", .s status)] }

/-- Model of `generate_tenements_geojson(n=8)`. -/
def generate_tenements_geojson (n : Nat) : RandGen → FeatureCollection × RandGen :=
  rbind (genFrom mkTenement 0 n) fun fs =>
  rpure { type := "FeatureCollection", features := fs }

/-- The `track_types` list of `generate_tracks_geojson`. -/
def track_types : List String := ["Haul Road", "Access Track", "Exploration Track", "Service Road"]

/-- The winding-path loop of `generate_tracks_geojson`: starting at `cur`,
take `k` random steps, returning the list of visited points (after the
start). -/
def trackSteps : (Rat × Rat) → Nat → RandGen → List (Rat × Rat) × RandGen
  | _, 0 => rpure []
  | cur, k + 1 =>
    rbind (uniform (-(1/10)) (1/10)) fun dx =>
    rbind (uniform (-(1/10)) (1/10)) fun dy =>
    rbind (trackSteps (cur.1 + dx, cur.2 + dy) k) fun rest =>
    rpure ((cur.1 + dx, cur.2 + dy) :: rest)

/-- One iteration of the loop of `generate_tracks_geojson`: a track
linestring feature. -/
def mkTrack (i : Nat) : RandGen → Feature × RandGen :=
  rbind random_point fun start =>
  rbind (randint 5 12) fun steps =>
  rbind (trackSteps start steps.toNat) fun rest =>
  rbind (choice "Haul Road" track_types) fun tname =>
  rbind (choice "Gravel" ["Gravel", "Dirt", "Sealed"]) fun surface =>
  rbind (choice (4 : Int) [4, 6, 8, 10, 15]) fun width =>
  rpure
    { type := "Feature"
      geometry := { type := "LineString", coordinates := .line (start :: rest) }
      properties := [
        ("track_id", .i ((i : Int) + 1)),
        ("name", .s (tname ++ " " ++ toString (i + 1))),
        ("surface", .s surface),
        ("width_m", .i width)] }

/-- Model of `generate_tracks_geojson(n=5)`. -/
def generate_tracks_geojson (n : Nat) : RandGen → FeatureCollection × RandGen :=
  rbind (genFrom mkTrack 0 n) fun fs =>
  rpure { type := "FeatureCollection", features := fs }

/-- One iteration of the loop of `generate_assays_csv`: one assay row, the
dict values drawn in Python's dict-literal evaluation order. -/
def mkAssayRow (i : Nat) : RandGen → Row × RandGen :=
  rbind random_point fun point =>
  rbind (gauss 50 12) fun fe =>
  rbind (uniform 2 12) fun sio2 =>
  rbind (uniform 1 6) fun al2o3 =>
  rbind (uniform (1/50) (3/20)) fun p_pct =>
  rbind (uniform (1/100) (2/25)) fun s_pct =>
  rbind (choice "RC" ["RC", "DD", "Surface", "Trench"]) fun stype =>
  rpure [
    ("sample_id", .s ("S" ++ padZeros 5 (i + 1))),
    ("longitude", .f (roundTo point.1 6)),
    ("latitude", .f (roundTo point.2 6)),
    ("easting", .f (roundTo (point.1 * 111000) 1)),
    ("northing", .f (roundTo (point.2 * 111000) 1)),
    ("fe_pct", .f (roundTo fe 2)),
    ("sio2_pct", .f (roundTo sio2 2)),
    ("al2o3_pct", .f (roundTo al2o3 2)),
    ("p_pct", .f (roundTo p_pct 3)),
    ("s_pct", .f (roundTo s_pct 3)),
    ("sample_type", .s stype)]

/-- Model of `generate_assays_csv(n=100)`. -/
def generate_assays_csv (n : Nat) : RandGen → List Row × RandGen :=
  genFrom mkAssayRow 0 n

/-- One iteration of the loop of `generate_survey_csv`: one survey row. -/
def mkSurveyRow (i : Nat) : RandGen → Row × RandGen :=
  rbind random_point fun point =>
  rbind (uniform 300 600) fun elev =>
  rbind (choice "Control" ["Control", "Boundary", "Feature", "Grid"]) fun desc =>
  rpure [
    ("point_id", .i ((i : Int) + 1)),
    ("x", .f (roundTo point.1 6)),
    ("y", .f (roundTo point.2 6)),
    ("elevation_m", .f (roundTo elev 2)),
    ("description", .s desc)]

/-- Model of `generate_survey_csv(n=200)`. -/
def generate_survey_csv (n : Nat) : RandGen → List Row × RandGen :=
  genFrom mkSurveyRow 0 n

/-- A JSON value, as produced by `json.dump` at the value level. -/
inductive Json where
  | str (s : String)
  | num (q : Rat)
  | arr (xs : List Json)
  | obj (members : List (String × Json))

/-- Serialize a coordinate pair to JSON. -/
def pairToJson (c : Rat × Rat) : Json := .arr [.num c.1, .num c.2]

/-- Serialize the coordinate payload of a geometry to JSON. -/
def coordsToJson : Coords → Json
  | .pt c => pairToJson c
  | .line cs => .arr (cs.map pairToJson)
  | .poly rings => .arr (rings.map fun ring => .arr (ring.map pairToJson))

/-- Serialize a property value to JSON. -/
def pvToJson : PValue → Json
  | .s v => .str v
  | .i v => .num (v : Rat)
  | .f v => .num v

/-- Serialize a feature dict to JSON. -/
def featureToJson (f : Feature) : Json :=
  .obj [
    ("type", .str f.type),
    ("geometry", .obj [
      ("type", .str f.geometry.type),
      ("coordinates", coordsToJson f.geometry.coordinates)]),
    ("properties", .obj (f.properties.map fun e => (e.1, pvToJson e.2)))]

/-- Serialize a feature collection dict to JSON. -/
def fcToJson (fc : FeatureCollection) : Json :=
  .obj [
    ("type", .str fc.type),
    ("features", .arr (fc.features.map featureToJson))]

/-- The content of a file written by the script.  Binary formats produced by
libraries outside this repository are abstracted to the data handed to them:
pyshp's writer receives a shape type, a field table and per-feature records;
rasterio receives raster dimensions and band count. -/
inductive FileContent where
  | json (j : Json)
  | csv (header : List String) (rows : List (List PValue))
  | shpData (geomType : String) (fields : List (String × Char)) (records : List Feature)
  | text (s : String)
  | tiffData (width height bands : Nat)
  | zipArchive (entries : List String)

/-- A file written by the script, as base name, extension and content
(every file the script writes is named `base.ext` inside `OUTPUT_DIR`). -/
structure FileEntry where
  base : String
  ext : String
  content : FileContent

/-- The dbf field table built by `generate_shapefile` from the first
feature's properties: names truncated to 10 characters, typed `N` for
Python ints and floats and `C` otherwise. -/
def shpFields (props : List (String × PValue)) : List (String × Char) :=
  props.map fun e =>
    (e.1.take 10,
     match e.2 with
     | .i _ => 'N'
     | .f _ => 'N'
     | .s _ => 'C')

/-- The WKT written to the `.prj` sidecar file. -/
def prjWKT : String :=
  "GEOGCS[\"WGS 84\",DATUM[\"WGS_1984\",SPHEROID[\"WGS 84\",6378137,298.257223563]],PRIMEM[\"Greenwich\",0],UNIT[\"degree\",0.0174532925199433]]"

/-- Model of `generate_shapefile(geojson_data, name)`.  Here `avail` models whether
`import shapefile` succeeds (the `except ImportError` branch returns
`False`).  Returns the success flag and the files written: pyshp's writer
produces `name.shp`, `name.shx` and `name.dbf` on close, and the script then
writes `name.prj`; nothing is written on any `False` branch. -/
def generate_shapefile (avail : Bool) (geojson_data : FeatureCollection) (name : String) :
    Bool × List FileEntry :=
  if avail then
    match geojson_data.features with
    | [] => (false, [])
    | f0 :: rest =>
      let geom_type := f0.geometry.type
      if geom_type == "Point" || geom_type == "LineString" || geom_type == "Polygon" then
        let fields := shpFields f0.properties
        let records := f0 :: rest
        ((true : Bool),
         [⟨name, "shp", .shpData geom_type fields records⟩,
          ⟨name, "shx", .shpData geom_type fields records⟩,
          ⟨name, "dbf", .shpData geom_type fields records⟩,
          ⟨name, "prj", .text prjWKT⟩])
      else (false, [])
  else (false, [])

/-- Model of `generate_geotiff()`.  Here `avail` models whether `import numpy` and
`import rasterio` succeed.  The raster payloads (256x256 gradient-plus-noise
elevation, 3-band RGB) are abstracted to their dimensions; nothing is
written when the import fails. -/
def generate_geotiff (avail : Bool) : Bool × List FileEntry :=
  if avail then
    ((true : Bool),
     [⟨"elevation", "tif", .tiffData 256 256 1⟩,
      ⟨"satellite_rgb", "tif", .tiffData 256 256 3⟩])
  else (false, [])

/-- Which optional third-party imports succeed. -/
structure Env where
  shapefileAvailable : Bool
  rasterioAvailable : Bool

/-- Serialize generated CSV rows the way `csv.DictWriter` does in `main`:
field names are the keys of the first row, and each row is written as the
values at those field names. -/
def csvContent (rows : List Row) : FileContent :=
  let fieldnames := (rows.headD []).map Prod.fst
  .csv fieldnames (rows.map fun r => fieldnames.map fun k => lookupD r k (.s ""))

/-- Model of `main()`: generate the four GeoJSON datasets, serialize them, generate
and write the two CSV files, then the shapefiles, then the GeoTIFFs, and
finally zip every file matching the glob `drillholes.*` (which includes
`drillholes.geojson`, so the archive is always created).  Returns the list
of files written, in order, and the final random state. -/
def Spinifex.main (env : Env) (g : RandGen) : List FileEntry × RandGen :=
  let pdh := generate_drillholes_geojson 50 g
  let pge := generate_geology_geojson 15 pdh.2
  let pte := generate_tenements_geojson 8 pge.2
  let ptr := generate_tracks_geojson 5 pte.2
  let geojsonWrites : List FileEntry := [
    ⟨"drillholes", "geojson", .json (fcToJson pdh.1)⟩,
    ⟨"geology", "geojson", .json (fcToJson pge.1)⟩,
    ⟨"tenements", "geojson", .json (fcToJson pte.1)⟩,
    ⟨"tracks", "geojson", .json (fcToJson ptr.1)⟩]
  let pas := generate_assays_csv 100 ptr.2
  let psu := generate_survey_csv 200 pas.2
  let csvWrites : List FileEntry := [
    ⟨"assays", "csv", csvContent pas.1⟩,
    ⟨"survey_points", "csv", csvContent psu.1⟩]
  let shpWrites : List FileEntry :=
    (generate_shapefile env.shapefileAvailable pdh.1 "drillholes").2 ++
    (generate_shapefile env.shapefileAvailable pge.1 "geology").2 ++
    (generate_shapefile env.shapefileAvailable pte.1 "tenements").2 ++
    (generate_shapefile env.shapefileAvailable ptr.1 "tracks").2
  let tifWrites := (generate_geotiff env.rasterioAvailable).2
  let prior := geojsonWrites ++ csvWrites ++ shpWrites ++ tifWrites
  let shp_files := prior.filter fun e => e.base == "drillholes"
  let zipWrites : List FileEntry :=
    if shp_files.isEmpty then []
    else [⟨"drillholes_shp", "zip", .zipArchive (shp_files.map fun e => e.base ++ "." ++ e.ext)⟩]
  (prior ++ zipWrites, psu.2)

/-- Look up a key in a JSON object's member list. -/
def jlookup (m : List (String × Json)) (k : String) : Option Json :=
  (m.find? fun e => e.1 == k).map Prod.snd

/-- A JSON value has the shape of a GeoJSON feature: an object whose `type`
is `"Feature"`, with a `geometry` object carrying `type` and `coordinates`,
and a `properties` object. -/
def isFeatureJsonB (j : Json) : Bool :=
  match j with
  | .obj m =>
    (match jlookup m "type" with | some (.str t) => t == "Feature" | _ => false) &&
    (match jlookup m "geometry" with
     | some (.obj gm) => (jlookup gm "type").isSome && (jlookup gm "coordinates").isSome
     | _ => false) &&
    (match jlookup m "properties" with | some (.obj _) => true | _ => false)
  | _ => false

/-- A JSON value has the shape of a GeoJSON feature collection. -/
def isFCJsonB (j : Json) : Bool :=
  match j with
  | .obj m =>
    (match jlookup m "type" with | some (.str t) => t == "FeatureCollection" | _ => false) &&
    (match jlookup m "features" with | some (.arr fs) => fs.all isFeatureJsonB | _ => false)
  | _ => false

/-- A coordinate pair lies within `BOUNDS` (both intervals closed). -/
def inBoundsB (c : Rat × Rat) : Bool :=
  decide (BOUNDS.minLon ≤ c.1) && decide (c.1 ≤ BOUNDS.maxLon) &&
  decide (BOUNDS.minLat ≤ c.2) && decide (c.2 ≤ BOUNDS.maxLat)

/-- A feature's geometry is a point within `BOUNDS`. -/
def geomPtInB (f : Feature) : Bool :=
  match f.geometry.coordinates with
  | .pt c => inBoundsB c
  | _ => false

/-- A feature's geometry has the given type string and its properties dict is
nonempty. -/
def hasGeomTypeB (t : String) (f : Feature) : Bool :=
  f.geometry.type == t && !f.properties.isEmpty

/-- The field names of rows of `generate_assays_csv`, in dict insertion
order. -/
def assayFieldnames : List String :=
  ["sample_id", "longitude", "latitude", "easting", "northing", "fe_pct",
   "sio2_pct", "al2o3_pct", "p_pct", "s_pct", "sample_type"]

/-- The field names of rows of `generate_survey_csv`, in dict insertion
order. -/
def surveyFieldnames : List String :=
  ["point_id", "x", "y", "elevation_m", "description"]

/-- The output of one of the six random-data generators, wrapped in a single
type so the generators can be quantified over together. -/
inductive GenOutput where
  | fc (v : FeatureCollection)
  | table (v : List Row)
deriving DecidableEq

/-- Wrapper presenting `generate_drillholes_geojson` as a generator of `GenOutput`. -/
def wrapDrillholes (n : Nat) : RandGen → GenOutput × RandGen :=
  rbind (generate_drillholes_geojson n) fun v => rpure (.fc v)

/-- Wrapper presenting `generate_geology_geojson` as a generator of `GenOutput`. -/
def wrapGeology (n : Nat) : RandGen → GenOutput × RandGen :=
  rbind (generate_geology_geojson n) fun v => rpure (.fc v)

/-- Wrapper presenting `generate_tenements_geojson` as a generator of `GenOutput`. -/
def wrapTenements (n : Nat) : RandGen → GenOutput × RandGen :=
  rbind (generate_tenements_geojson n) fun v => rpure (.fc v)

/-- Wrapper presenting `generate_tracks_geojson` as a generator of `GenOutput`. -/
def wrapTracks (n : Nat) : RandGen → GenOutput × RandGen :=
  rbind (generate_tracks_geojson n) fun v => rpure (.fc v)

/-- Wrapper presenting `generate_assays_csv` as a generator of `GenOutput`. -/
def wrapAssays (n : Nat) : RandGen → GenOutput × RandGen :=
  rbind (generate_assays_csv n) fun v => rpure (.table v)

/-- Wrapper presenting `generate_survey_csv` as a generator of `GenOutput`. -/
def wrapSurvey (n : Nat) : RandGen → GenOutput × RandGen :=
  rbind (generate_survey_csv n) fun v => rpure (.table v)

/-- The six random-data generators of the script. -/
def allGenerators : List (Nat → RandGen → GenOutput × RandGen) :=
  [wrapDrillholes, wrapGeology, wrapTenements, wrapTracks, wrapAssays, wrapSurvey]

/-- Two random states agree from the current position on: same cursor, and
the same raw draws at every position at or beyond it. -/
def agreeFrom (g g' : RandGen) : Prop :=
  g.idx = g'.idx ∧ ∀ m, g.idx ≤ m → g.stream m = g'.stream m

/-- A random computation only reads the stream from the cursor onward: on
states that agree from the cursor on, it returns the same value and leaves
states that again agree. -/
def Resp {α : Type} (f : RandGen → α × RandGen) : Prop :=
  ∀ g g', agreeFrom g g' → (f g).1 = (f g').1 ∧ agreeFrom (f g).2 (f g').2

/-- A concrete random state whose raw draws are all zero. -/
def gC : RandGen := ⟨fun _ => 0, 0⟩

/-- The `description` field of the first row of a generated table (used to
exhibit that two runs differ). -/
def firstDescription (o : GenOutput) : String :=
  match o with
  | .table (r :: _) =>
    (match lookupD r "description" (.s "") with
     | .s v => v
     | _ => "")
  | _ => ""

/-- A concrete random state whose raw draw is `1` at position `3` and `0`
elsewhere. -/
def gD : RandGen := ⟨fun n => if n = 3 then 1 else 0, 0⟩

/-- A concrete random state with cursor `5` on the identity stream. -/
def gAt5 : RandGen := ⟨fun n => n, 5⟩

/-- A concrete random state with cursor `5` that agrees with `gAt5` from
position `5` on but differs below it. -/
def gAt5' : RandGen := ⟨fun n => if n < 5 then 99 else n, 5⟩

/-- A feature collection with no features. -/
def fcEmpty : FeatureCollection := ⟨"FeatureCollection", []⟩

/-- A feature whose geometry type is none of Point, LineString, Polygon. -/
def oddFeature : Feature :=
  { type := "Feature"
    geometry := { type := "MultiPolygon", coordinates := .poly [] }
    properties := [] }

/-- A feature collection whose first feature has an unsupported geometry. -/
def fcOdd : FeatureCollection := ⟨"FeatureCollection", [oddFeature]⟩

/-! ### Generic lemmas about the embedding -/

theorem genFrom_length {α : Type} (f : Nat → RandGen → α × RandGen) :
    ∀ (k i : Nat) (g : RandGen), ((genFrom f i k g).1).length = k := by
  intro k
  induction k with
  | zero => intro i g; rfl
  | succ k ih => intro i g; simp [genFrom, rbind, rpure, ih]

theorem genFrom_all {α : Type} (f : Nat → RandGen → α × RandGen) (p : α → Bool)
    (h : ∀ (i : Nat) (g : RandGen), p ((f i g).1) = true) :
    ∀ (k i : Nat) (g : RandGen), ((genFrom f i k g).1).all p = true := by
  intro k
  induction k with
  | zero => intro i g; rfl
  | succ k ih => intro i g; simp [genFrom, rbind, rpure, List.all_cons, h, ih]

theorem genFrom_mem {α : Type} (f : Nat → RandGen → α × RandGen) :
    ∀ (k i : Nat) (g : RandGen) (x : α), x ∈ (genFrom f i k g).1 →
      ∃ (j : Nat) (g' : RandGen), x = (f j g').1 := by
  intro k
  induction k with
  | zero => intro i g x hx; simp [genFrom, rpure] at hx
  | succ k ih =>
    intro i g x hx
    simp only [genFrom, rbind, rpure, List.mem_cons] at hx
    rcases hx with rfl | hx
    · exact ⟨i, g, rfl⟩
    · exact ih _ _ _ hx

theorem all_map_eq {α β : Type} (f : α → β) (p : β → Bool) (l : List α) :
    (l.map f).all p = l.all (fun x => p (f x)) := by
  induction l with
  | nil => rfl
  | cons a l ih => simp [ih]

theorem randUnit_nonneg (g : RandGen) : 0 ≤ (randUnit g).1 := by
  show (0 : Rat) ≤ ((g.stream g.idx % M53 : Nat) : Rat) / ((M53 : Nat) : Rat)
  positivity

theorem randUnit_lt_one (g : RandGen) : (randUnit g).1 < 1 := by
  show ((g.stream g.idx % M53 : Nat) : Rat) / ((M53 : Nat) : Rat) < 1
  rw [div_lt_one (by exact_mod_cast (by norm_num [M53] : (0 : Nat) < M53))]
  exact_mod_cast Nat.mod_lt _ (by norm_num [M53] : (0 : Nat) < M53)

theorem uniform_bounds (a b : Rat) (hab : a ≤ b) (g : RandGen) :
    a ≤ (uniform a b g).1 ∧ (uniform a b g).1 ≤ b := by
  have h0 := randUnit_nonneg g
  have h1 := randUnit_lt_one g
  show a ≤ a + (b - a) * (randUnit g).1 ∧ a + (b - a) * (randUnit g).1 ≤ b
  constructor
  · nlinarith
  · nlinarith

theorem random_point_inBounds (g : RandGen) : inBoundsB (random_point g).1 = true := by
  have h1 := uniform_bounds BOUNDS.minLon BOUNDS.maxLon (by norm_num [BOUNDS]) g
  have h2 := uniform_bounds BOUNDS.minLat BOUNDS.maxLat (by norm_num [BOUNDS])
    (uniform BOUNDS.minLon BOUNDS.maxLon g).2
  show inBoundsB ((uniform BOUNDS.minLon BOUNDS.maxLon g).1,
    (uniform BOUNDS.minLat BOUNDS.maxLat (uniform BOUNDS.minLon BOUNDS.maxLon g).2).1) = true
  simp only [inBoundsB, Bool.and_eq_true, decide_eq_true_eq]
  exact ⟨⟨⟨h1.1, h1.2⟩, h2.1⟩, h2.2⟩

theorem choice_mem {α : Type} (d : α) (xs : List α) (g : RandGen) (h : xs ≠ []) :
    (choice d xs g).1 ∈ xs := by
  show xs.getD ((RandGen.next g).1 % xs.length) d ∈ xs
  have hl : 0 < xs.length := List.length_pos.mpr h
  have hlt : (RandGen.next g).1 % xs.length < xs.length := Nat.mod_lt _ hl
  rw [List.getD_eq_getElem xs d hlt]
  exact List.getElem_mem hlt

/-! ### Locality of the random computations -/

theorem resp_rpure {α : Type} (a : α) : Resp (rpure a) := fun _ _ h => ⟨rfl, h⟩

theorem resp_rbind {α β : Type} {x : RandGen → α × RandGen}
    {f : α → RandGen → β × RandGen} (hx : Resp x) (hf : ∀ a, Resp (f a)) :
    Resp (rbind x f) := by
  intro g g' h
  obtain ⟨h1, h2⟩ := hx g g' h
  show (f (x g).1 (x g).2).1 = (f (x g').1 (x g').2).1 ∧
    agreeFrom (f (x g).1 (x g).2).2 (f (x g').1 (x g').2).2
  rw [h1]
  exact hf (x g').1 (x g).2 (x g').2 h2

theorem resp_next : Resp RandGen.next := by
  intro g g' h
  obtain ⟨h1, h2⟩ := h
  refine ⟨?_, ?_, ?_⟩
  · show g.stream g.idx = g'.stream g'.idx
    rw [← h1]
    exact h2 g.idx (le_refl _)
  · show g.idx + 1 = g'.idx + 1
    rw [h1]
  · intro m hm
    have hm' : g.idx + 1 ≤ m := hm
    exact h2 m (by omega : g.idx ≤ m)

theorem resp_randUnit : Resp randUnit := resp_rbind resp_next fun _ => resp_rpure _

theorem resp_uniform (a b : Rat) : Resp (uniform a b) :=
  resp_rbind resp_randUnit fun _ => resp_rpure _

theorem resp_randbelow (n : Nat) : Resp (randbelow n) :=
  resp_rbind resp_next fun _ => resp_rpure _

theorem resp_randint (a b : Int) : Resp (randint a b) :=
  resp_rbind (resp_randbelow _) fun _ => resp_rpure _

theorem resp_choice {α : Type} (d : α) (xs : List α) : Resp (choice d xs) :=
  resp_rbind (resp_randbelow _) fun _ => resp_rpure _

theorem resp_gauss (mu sigma : Rat) : Resp (gauss mu sigma) :=
  resp_rbind resp_randUnit fun _ => resp_rbind resp_randUnit fun _ => resp_rpure _

theorem resp_random_point : Resp random_point :=
  resp_rbind (resp_uniform _ _) fun _ => resp_rbind (resp_uniform _ _) fun _ => resp_rpure _

theorem resp_genFrom {α : Type} (f : Nat → RandGen → α × RandGen)
    (hf : ∀ i, Resp (f i)) : ∀ (k i : Nat), Resp (genFrom f i k) := by
  intro k
  induction k with
  | zero => intro i; exact resp_rpure _
  | succ k ih =>
    intro i
    exact resp_rbind (hf i) fun x => resp_rbind (ih (i + 1)) fun xs => resp_rpure _

theorem resp_polyVertex (center : Rat × Rat) (size : Rat) (vertices i : Nat) :
    Resp (polyVertex center size vertices i) :=
  resp_rbind (resp_uniform _ _) fun _ => resp_rbind (resp_uniform _ _) fun _ => resp_rpure _

theorem resp_random_polygon (center : Rat × Rat) (size : Rat) (vertices : Nat) :
    Resp (random_polygon center size vertices) :=
  resp_rbind (resp_genFrom _ (resp_polyVertex center size vertices) vertices 0)
    fun _ => resp_rpure _

theorem resp_trackSteps : ∀ (k : Nat) (cur : Rat × Rat), Resp (trackSteps cur k) := by
  intro k
  induction k with
  | zero => intro cur; exact resp_rpure _
  | succ k ih =>
    intro cur
    exact resp_rbind (resp_uniform _ _) fun dx =>
      resp_rbind (resp_uniform _ _) fun dy =>
      resp_rbind (ih _) fun rest => resp_rpure _

theorem resp_mkDrillhole (i : Nat) : Resp (mkDrillhole i) := by
  unfold mkDrillhole
  exact resp_rbind resp_random_point fun point =>
    resp_rbind (resp_gauss 45 15) fun bf0 =>
    resp_rbind (resp_randint 50 400) fun depth =>
    resp_rbind (resp_uniform 2 15) fun sio2 =>
    resp_rbind (resp_uniform 1 8) fun al2o3 =>
    resp_rbind (resp_uniform 2 12) fun loi =>
    resp_rbind (resp_choice "BIF" rock_types) fun rock =>
    resp_rbind (resp_randint 2018 2024) fun yr =>
    resp_rpure _

theorem resp_mkGeology (i : Nat) : Resp (mkGeology i) := by
  unfold mkGeology
  exact resp_rbind resp_random_point fun center =>
    resp_rbind (resp_choice _ geology_units) fun unit =>
    resp_rbind (resp_uniform _ _) fun sz =>
    resp_rbind (resp_random_polygon center sz 6) fun ring =>
    resp_rbind (resp_choice _ _) fun conf =>
    resp_rpure _

theorem resp_mkTenement (i : Nat) : Resp (mkTenement i) := by
  unfold mkTenement
  exact resp_rbind resp_random_point fun center =>
    resp_rbind (resp_uniform _ _) fun size =>
    resp_rbind (resp_randint 45 52) fun tid1 =>
    resp_rbind (resp_randint 1000 9999) fun tid2 =>
    resp_rbind (resp_choice _ _) fun ttype =>
    resp_rbind (resp_choice _ _) fun holder =>
    resp_rbind (resp_randint 2010 2023) fun gy =>
    resp_rbind (resp_randint 1 12) fun gm =>
    resp_rbind (resp_randint 1 28) fun gd =>
    resp_rbind (resp_choice _ _) fun status =>
    resp_rpure _

theorem resp_mkTrack (i : Nat) : Resp (mkTrack i) := by
  unfold mkTrack
  exact resp_rbind resp_random_point fun start =>
    resp_rbind (resp_randint 5 12) fun steps =>
    resp_rbind (resp_trackSteps _ start) fun rest =>
    resp_rbind (resp_choice _ _) fun tname =>
    resp_rbind (resp_choice _ _) fun surface =>
    resp_rbind (resp_choice _ _) fun width =>
    resp_rpure _

theorem resp_mkAssayRow (i : Nat) : Resp (mkAssayRow i) := by
  unfold mkAssayRow
  exact resp_rbind resp_random_point fun point =>
    resp_rbind (resp_gauss 50 12) fun fe =>
    resp_rbind (resp_uniform 2 12) fun sio2 =>
    resp_rbind (resp_uniform 1 6) fun al2o3 =>
    resp_rbind (resp_uniform _ _) fun p_pct =>
    resp_rbind (resp_uniform _ _) fun s_pct =>
    resp_rbind (resp_choice _ _) fun stype =>
    resp_rpure _

theorem resp_mkSurveyRow (i : Nat) : Resp (mkSurveyRow i) := by
  unfold mkSurveyRow
  exact resp_rbind resp_random_point fun point =>
    resp_rbind (resp_uniform 300 600) fun elev =>
    resp_rbind (resp_choice _ _) fun desc =>
    resp_rpure _

theorem resp_wrapDrillholes (n : Nat) : Resp (wrapDrillholes n) :=
  resp_rbind (resp_rbind (resp_genFrom _ resp_mkDrillhole n 0) fun _ => resp_rpure _)
    fun _ => resp_rpure _

theorem resp_wrapGeology (n : Nat) : Resp (wrapGeology n) :=
  resp_rbind (resp_rbind (resp_genFrom _ resp_mkGeology n 0) fun _ => resp_rpure _)
    fun _ => resp_rpure _

theorem resp_wrapTenements (n : Nat) : Resp (wrapTenements n) :=
  resp_rbind (resp_rbind (resp_genFrom _ resp_mkTenement n 0) fun _ => resp_rpure _)
    fun _ => resp_rpure _

theorem resp_wrapTracks (n : Nat) : Resp (wrapTracks n) :=
  resp_rbind (resp_rbind (resp_genFrom _ resp_mkTrack n 0) fun _ => resp_rpure _)
    fun _ => resp_rpure _

theorem resp_wrapAssays (n : Nat) : Resp (wrapAssays n) :=
  resp_rbind (resp_genFrom _ resp_mkAssayRow n 0) fun _ => resp_rpure _

theorem resp_wrapSurvey (n : Nat) : Resp (wrapSurvey n) :=
  resp_rbind (resp_genFrom _ resp_mkSurveyRow n 0) fun _ => resp_rpure _

/-! ### Per-claim theorems -/

/-- C1: every drillhole feature is a Point, every track feature a
LineString, every geology and tenement feature a Polygon, and each carries a
non-empty properties dict. -/
theorem feature_geometry_types (n : Nat) (g : RandGen) :
    ((generate_drillholes_geojson n g).1.features.all (hasGeomTypeB "Point")) = true ∧
    ((generate_tracks_geojson n g).1.features.all (hasGeomTypeB "LineString")) = true ∧
    ((generate_geology_geojson n g).1.features.all (hasGeomTypeB "Polygon")) = true ∧
    ((generate_tenements_geojson n g).1.features.all (hasGeomTypeB "Polygon")) = true :=
  ⟨genFrom_all mkDrillhole _ (fun _ _ => rfl) n 0 g,
   genFrom_all mkTrack _ (fun _ _ => rfl) n 0 g,
   genFrom_all mkGeology _ (fun _ _ => rfl) n 0 g,
   genFrom_all mkTenement _ (fun _ _ => rfl) n 0 g⟩

theorem featureJson_wf (f : Feature) (h : f.type = "Feature") :
    isFeatureJsonB (featureToJson f) = true := by
  obtain ⟨t, geom, props⟩ := f
  obtain ⟨gt, gc⟩ := geom
  have h' : t = "Feature" := h
  subst h'
  rfl

theorem fcJson_wf (fc : FeatureCollection) (h1 : fc.type = "FeatureCollection")
    (h2 : ∀ f ∈ fc.features, f.type = "Feature") :
    isFCJsonB (fcToJson fc) = true := by
  obtain ⟨t, fs⟩ := fc
  have h1' : t = "FeatureCollection" := h1
  subst h1'
  have hred : isFCJsonB (fcToJson ⟨"FeatureCollection", fs⟩) =
      (fs.map featureToJson).all isFeatureJsonB := rfl
  rw [hred, all_map_eq]
  exact List.all_eq_true.mpr fun f hf => featureJson_wf f (h2 f hf)

theorem fc_wf_drillholes (n : Nat) (g : RandGen) :
    isFCJsonB (fcToJson (generate_drillholes_geojson n g).1) = true := by
  refine fcJson_wf _ rfl fun f hf => ?_
  obtain ⟨j, g', rfl⟩ := genFrom_mem mkDrillhole n 0 g f hf
  rfl

theorem fc_wf_geology (n : Nat) (g : RandGen) :
    isFCJsonB (fcToJson (generate_geology_geojson n g).1) = true := by
  refine fcJson_wf _ rfl fun f hf => ?_
  obtain ⟨j, g', rfl⟩ := genFrom_mem mkGeology n 0 g f hf
  rfl

theorem fc_wf_tenements (n : Nat) (g : RandGen) :
    isFCJsonB (fcToJson (generate_tenements_geojson n g).1) = true := by
  refine fcJson_wf _ rfl fun f hf => ?_
  obtain ⟨j, g', rfl⟩ := genFrom_mem mkTenement n 0 g f hf
  rfl

theorem fc_wf_tracks (n : Nat) (g : RandGen) :
    isFCJsonB (fcToJson (generate_tracks_geojson n g).1) = true := by
  refine fcJson_wf _ rfl fun f hf => ?_
  obtain ⟨j, g', rfl⟩ := genFrom_mem mkTrack n 0 g f hf
  rfl

theorem main_geojson_filter (env : Env) (g : RandGen) :
    ((Spinifex.main env g).1.filter fun e => e.ext == "geojson") =
      (Spinifex.main env g).1.take 4 := by
  obtain ⟨sa, ra⟩ := env
  cases sa <;> cases ra <;> rfl

/-- C6: every GeoJSON file written by `main` holds a JSON object of `type`
`"FeatureCollection"` whose `features` are all objects of `type`
`"Feature"` with a `geometry` (carrying `type` and `coordinates`) and a
`properties` object; the file content is the JSON serialization of the
generated dataset. -/
theorem geojson_writes_wellformed (env : Env) (g : RandGen) :
    (((Spinifex.main env g).1.filter fun e => e.ext == "geojson").all
      fun e => match e.content with | .json j => isFCJsonB j | _ => false) = true := by
  rw [main_geojson_filter]
  show (isFCJsonB (fcToJson (generate_drillholes_geojson 50 g).1) &&
    (isFCJsonB (fcToJson (generate_geology_geojson 15
        (generate_drillholes_geojson 50 g).2).1) &&
     (isFCJsonB (fcToJson (generate_tenements_geojson 8
         (generate_geology_geojson 15 (generate_drillholes_geojson 50 g).2).2).1) &&
      (isFCJsonB (fcToJson (generate_tracks_geojson 5
          (generate_tenements_geojson 8 (generate_geology_geojson 15
            (generate_drillholes_geojson 50 g).2).2).2).1) &&
       true)))) = true
  rw [fc_wf_drillholes, fc_wf_geology, fc_wf_tenements, fc_wf_tracks]
  rfl

/-- C2: when an optional third-party module cannot be imported, the
corresponding writer returns `False` and writes nothing, and `main` still
writes the four GeoJSON files and the two CSV files (the same ones, whatever
the imports). -/
theorem optional_formats_skip_gracefully :
    (∀ (fc : FeatureCollection) (name : String),
       generate_shapefile false fc name = (false, [])) ∧
    generate_geotiff false = (false, []) ∧
    (∀ (env : Env) (g : RandGen),
       ((Spinifex.main env g).1.take 6).map (fun e => (e.base, e.ext)) =
         [("drillholes", "geojson"), ("geology", "geojson"), ("tenements", "geojson"),
          ("tracks", "geojson"), ("assays", "csv"), ("survey_points", "csv")] ∧
       (Spinifex.main env g).1.take 6 = (Spinifex.main ⟨false, false⟩ g).1.take 6) :=
  ⟨fun _ _ => rfl, rfl, fun _ _ => ⟨rfl, rfl⟩⟩

/-- C7: `main` writes, in order: the four GeoJSON files (whose contents are
the serializations of the four datasets generated once, in that order from
the initial random state), the two CSV files, then shapefiles (if
available), then GeoTIFFs (if available), and the zip archive last. -/
theorem main_write_order (env : Env) (g : RandGen) :
    ((Spinifex.main env g).1.map fun e => (e.base, e.ext)) =
      ([("drillholes", "geojson"), ("geology", "geojson"), ("tenements", "geojson"),
        ("tracks", "geojson"), ("assays", "csv"), ("survey_points", "csv")] ++
       (if env.shapefileAvailable then
          [("drillholes", "shp"), ("drillholes", "shx"), ("drillholes", "dbf"),
           ("drillholes", "prj"), ("geology", "shp"), ("geology", "shx"),
           ("geology", "dbf"), ("geology", "prj"), ("tenements", "shp"),
           ("tenements", "shx"), ("tenements", "dbf"), ("tenements", "prj"),
           ("tracks", "shp"), ("tracks", "shx"), ("tracks", "dbf"), ("tracks", "prj")]
        else []) ++
       (if env.rasterioAvailable then [("elevation", "tif"), ("satellite_rgb", "tif")]
        else []) ++
       [("drillholes_shp", "zip")]) ∧
    (Spinifex.main env g).1.take 6 =
      [⟨"drillholes", "geojson",
         .json (fcToJson (generate_drillholes_geojson 50 g).1)⟩,
       ⟨"geology", "geojson",
         .json (fcToJson (generate_geology_geojson 15
           (generate_drillholes_geojson 50 g).2).1)⟩,
       ⟨"tenements", "geojson",
         .json (fcToJson (generate_tenements_geojson 8 (generate_geology_geojson 15
           (generate_drillholes_geojson 50 g).2).2).1)⟩,
       ⟨"tracks", "geojson",
         .json (fcToJson (generate_tracks_geojson 5 (generate_tenements_geojson 8
           (generate_geology_geojson 15 (generate_drillholes_geojson 50 g).2).2).2).1)⟩,
       ⟨"assays", "csv",
         csvContent (generate_assays_csv 100 (generate_tracks_geojson 5
           (generate_tenements_geojson 8 (generate_geology_geojson 15
             (generate_drillholes_geojson 50 g).2).2).2).2).1⟩,
       ⟨"survey_points", "csv",
         csvContent (generate_survey_csv 200 (generate_assays_csv 100
           (generate_tracks_geojson 5 (generate_tenements_geojson 8
             (generate_geology_geojson 15
               (generate_drillholes_geojson 50 g).2).2).2).2).2).1⟩] := by
  obtain ⟨sa, ra⟩ := env
  refine ⟨?_, rfl⟩
  cases sa <;> cases ra <;> rfl

/-- C4: the CSV generators return exactly `n` rows sharing one field-name
list, and `main` writes each CSV file as that header plus exactly the `n`
data rows (`n = 100` for assays, `n = 200` for survey points). -/
theorem csv_outputs_tabular :
    (∀ (n : Nat) (g : RandGen), 1 ≤ n →
       (generate_assays_csv n g).1.length = n ∧
       ((generate_assays_csv n g).1.all fun r => r.map Prod.fst == assayFieldnames) = true ∧
       (generate_survey_csv n g).1.length = n ∧
       ((generate_survey_csv n g).1.all fun r => r.map Prod.fst == surveyFieldnames) = true) ∧
    (∀ (env : Env) (g : RandGen),
       ∃ (acells scells : List (List PValue)),
         ((Spinifex.main env g).1.drop 4).take 2 =
           [⟨"assays", "csv", .csv assayFieldnames acells⟩,
            ⟨"survey_points", "csv", .csv surveyFieldnames scells⟩] ∧
         acells.length = 100 ∧ scells.length = 200) := by
  constructor
  · intro n g _
    exact ⟨genFrom_length mkAssayRow n 0 g,
           genFrom_all mkAssayRow _ (fun _ _ => rfl) n 0 g,
           genFrom_length mkSurveyRow n 0 g,
           genFrom_all mkSurveyRow _ (fun _ _ => rfl) n 0 g⟩
  · intro env g
    refine ⟨_, _, rfl, ?_, ?_⟩
    · rw [List.length_map]
      exact genFrom_length mkAssayRow 100 0 _
    · rw [List.length_map]
      exact genFrom_length mkSurveyRow 200 0 _

/-- Witness for C4, instantiated at `n = 1` and an all-zero random state. -/
theorem csv_outputs_tabular_witness :
    (generate_assays_csv 1 gC).1.length = 1 ∧
    ((generate_assays_csv 1 gC).1.all fun r => r.map Prod.fst == assayFieldnames) = true ∧
    (generate_survey_csv 1 gC).1.length = 1 ∧
    ((generate_survey_csv 1 gC).1.all fun r => r.map Prod.fst == surveyFieldnames) = true :=
  csv_outputs_tabular.1 1 gC (by decide)

theorem choice_status (g : RandGen) :
    (choice "Active" ["Active", "Active", "Active", "Pending"] g).1 = "Active" ∨
    (choice "Active" ["Active", "Active", "Active", "Pending"] g).1 = "Pending" := by
  have hm := choice_mem "Active" ["Active", "Active", "Active", "Pending"] g (by decide)
  simp only [List.mem_cons, List.not_mem_nil, or_false] at hm
  tauto

/-- C5: every tenement feature is a Polygon whose properties are exactly the
six administrative keys, with `type` drawn from the four tenement types and
`status` from Active/Pending. -/
theorem tenement_features_admin_polygons (n : Nat) (g : RandGen) (f : Feature)
    (hf : f ∈ (generate_tenements_geojson n g).1.features) :
    f.geometry.type = "Polygon" ∧
    f.properties.map Prod.fst =
      ["tenement_id", "type", "holder", "area_km2", "granted", "status"] ∧
    (∃ v, lookupD f.properties "type" (.s "") = .s v ∧ v ∈ tenement_types) ∧
    (∃ v, lookupD f.properties "status" (.s "") = .s v ∧
      (v = "Active" ∨ v = "Pending")) := by
  obtain ⟨j, g', rfl⟩ := genFrom_mem mkTenement n 0 g f hf
  refine ⟨rfl, rfl, ⟨_, rfl, ?_⟩, ⟨_, rfl, ?_⟩⟩
  · exact choice_mem _ _ _ (by decide)
  · exact choice_status _

/-- Witness for C5: the single feature of a one-tenement run from the
all-zero random state. -/
theorem tenement_features_admin_polygons_witness :
    ((mkTenement 0 gC).1).geometry.type = "Polygon" ∧
    ((mkTenement 0 gC).1).properties.map Prod.fst =
      ["tenement_id", "type", "holder", "area_km2", "granted", "status"] ∧
    (∃ v, lookupD ((mkTenement 0 gC).1).properties "type" (.s "") = .s v ∧
      v ∈ tenement_types) ∧
    (∃ v, lookupD ((mkTenement 0 gC).1).properties "status" (.s "") = .s v ∧
      (v = "Active" ∨ v = "Pending")) :=
  tenement_features_admin_polygons 1 gC (mkTenement 0 gC).1 (List.mem_cons_self _ _)

/-- C8: `random_point` always lies in the closed `BOUNDS` box; hence every
drillhole point does, and every assay row and survey row stores the
roundings of a point that does. -/
theorem random_values_within_bounds :
    (∀ g : RandGen, inBoundsB (random_point g).1 = true) ∧
    (∀ (n : Nat) (g : RandGen),
       ((generate_drillholes_geojson n g).1.features.all geomPtInB) = true) ∧
    (∀ (n : Nat) (g : RandGen) (r : Row), r ∈ (generate_assays_csv n g).1 →
       ∃ p : Rat × Rat, inBoundsB p = true ∧
         lookupD r "longitude" (.s "") = .f (roundTo p.1 6) ∧
         lookupD r "latitude" (.s "") = .f (roundTo p.2 6)) ∧
    (∀ (n : Nat) (g : RandGen) (r : Row), r ∈ (generate_survey_csv n g).1 →
       ∃ p : Rat × Rat, inBoundsB p = true ∧
         lookupD r "x" (.s "") = .f (roundTo p.1 6) ∧
         lookupD r "y" (.s "") = .f (roundTo p.2 6)) := by
  refine ⟨random_point_inBounds, ?_, ?_, ?_⟩
  · intro n g
    refine genFrom_all mkDrillhole _ (fun i g' => ?_) n 0 g
    show inBoundsB (random_point g').1 = true
    exact random_point_inBounds g'
  · intro n g r hr
    obtain ⟨j, g', rfl⟩ := genFrom_mem mkAssayRow n 0 g r hr
    exact ⟨(random_point g').1, random_point_inBounds g', rfl, rfl⟩
  · intro n g r hr
    obtain ⟨j, g', rfl⟩ := genFrom_mem mkSurveyRow n 0 g r hr
    exact ⟨(random_point g').1, random_point_inBounds g', rfl, rfl⟩

/-- Witness for C8: the single row of a one-row assay run from the all-zero
random state. -/
theorem random_values_within_bounds_witness :
    ∃ p : Rat × Rat, inBoundsB p = true ∧
      lookupD ((mkAssayRow 0 gC).1) "longitude" (.s "") = .f (roundTo p.1 6) ∧
      lookupD ((mkAssayRow 0 gC).1) "latitude" (.s "") = .f (roundTo p.2 6) :=
  random_values_within_bounds.2.2.1 1 gC (mkAssayRow 0 gC).1 (List.mem_cons_self _ _)

/-- C9: `random_polygon` returns `vertices + 1` points with last equal to
first (for the positive vertex counts on which Python does not raise), and
every tenement ring is 5 points closing on its first. -/
theorem polygon_rings_closed :
    (∀ (center : Rat × Rat) (size : Rat) (vertices : Nat) (g : RandGen), 0 < vertices →
       (random_polygon center size vertices g).1.length = vertices + 1 ∧
       (random_polygon center size vertices g).1.getLast? =
         (random_polygon center size vertices g).1.head?) ∧
    (∀ (n : Nat) (g : RandGen) (f : Feature),
       f ∈ (generate_tenements_geojson n g).1.features →
       ∃ ring : List (Rat × Rat), f.geometry.coordinates = .poly [ring] ∧
         ring.length = 5 ∧ ring.head? = ring.getLast?) := by
  constructor
  · intro center size vertices g hv
    have hlen : ((genFrom (polyVertex center size vertices) 0 vertices g).1).length =
        vertices := genFrom_length _ vertices 0 g
    rcases hcoords : (genFrom (polyVertex center size vertices) 0 vertices g).1 with _ | ⟨c, t⟩
    · rw [hcoords] at hlen
      simp at hlen
      omega
    · have hres : (random_polygon center size vertices g).1 = (c :: t) ++ [c] := by
        show (match (genFrom (polyVertex center size vertices) 0 vertices g).1 with
              | [] => ([] : List (Rat × Rat))
              | c :: _ => (genFrom (polyVertex center size vertices) 0 vertices g).1 ++ [c]) =
          (c :: t) ++ [c]
        rw [hcoords]
      rw [hcoords] at hlen
      constructor
      · rw [hres, List.length_append, hlen]
        rfl
      · rw [hres, List.getLast?_concat]
        rfl
  · intro n g f hf
    obtain ⟨j, g', rfl⟩ := genFrom_mem mkTenement n 0 g f hf
    exact ⟨_, rfl, rfl, rfl⟩

/-- Witness for C9: a hexagon ring from the all-zero random state. -/
theorem polygon_rings_closed_witness :
    (random_polygon (0, 0) 1 6 gC).1.length = 7 ∧
    (random_polygon (0, 0) 1 6 gC).1.getLast? = (random_polygon (0, 0) 1 6 gC).1.head? :=
  ⟨(polygon_rings_closed.1 (0, 0) 1 6 gC (by decide)).1,
   (polygon_rings_closed.1 (0, 0) 1 6 gC (by decide)).2⟩

/-- C10: `generate_shapefile` returns `False` and writes nothing when the
feature list is empty, or when the first feature's geometry type is not
Point, LineString or Polygon — even with the module importable. -/
theorem shapefile_rejects_empty_or_unknown :
    (∀ (avail : Bool) (name : String) (fc : FeatureCollection),
       fc.features = [] → generate_shapefile avail fc name = (false, [])) ∧
    (∀ (avail : Bool) (name : String) (fc : FeatureCollection) (f0 : Feature)
       (rest : List Feature), fc.features = f0 :: rest →
       f0.geometry.type ≠ "Point" → f0.geometry.type ≠ "LineString" →
       f0.geometry.type ≠ "Polygon" →
       generate_shapefile avail fc name = (false, [])) := by
  constructor
  · intro avail name fc h
    cases avail
    · rfl
    · simp [generate_shapefile, h]
  · intro avail name fc f0 rest h h1 h2 h3
    cases avail
    · rfl
    · simp [generate_shapefile, h, h1, h2, h3]

/-- Witness for C10: an empty collection and a MultiPolygon-first collection
are both rejected even with the module available. -/
theorem shapefile_rejects_empty_or_unknown_witness :
    generate_shapefile true fcEmpty "drillholes" = (false, []) ∧
    generate_shapefile true fcOdd "geology" = (false, []) :=
  ⟨shapefile_rejects_empty_or_unknown.1 true "drillholes" fcEmpty rfl,
   shapefile_rejects_empty_or_unknown.2 true "geology" fcOdd oddFeature [] rfl
     (by decide) (by decide) (by decide)⟩

/-- C3 (counterexample): it is not true that running one generator before
another leaves the second's output as it would have been from the same
starting state — the generators share and advance one random state.  At the
explicit state `gD`, running `generate_assays_csv` first changes the
`description` that `generate_survey_csv` then draws. -/
theorem generators_not_independent :
    ¬ (∀ f1 ∈ allGenerators, ∀ f2 ∈ allGenerators, ∀ (m n : Nat) (g : RandGen),
        (f2 n ((f1 m g).2)).1 = (f2 n g).1) := by
  intro h
  have hm1 : wrapAssays ∈ allGenerators :=
    List.mem_cons_of_mem _ (List.mem_cons_of_mem _ (List.mem_cons_of_mem _
      (List.mem_cons_of_mem _ (List.mem_cons_self _ _))))
  have hm2 : wrapSurvey ∈ allGenerators :=
    List.mem_cons_of_mem _ (List.mem_cons_of_mem _ (List.mem_cons_of_mem _
      (List.mem_cons_of_mem _ (List.mem_cons_of_mem _ (List.mem_cons_self _ _)))))
  have heq := h wrapAssays hm1 wrapSurvey hm2 1 1 gD
  have h1 : firstDescription (wrapSurvey 1 ((wrapAssays 1 gD).2)).1 = "Control" := rfl
  rw [heq] at h1
  have h2 : firstDescription (wrapSurvey 1 gD).1 = "Boundary" := rfl
  rw [h2] at h1
  exact absurd h1 (by decide)

/-- C3 (amended): the generators interact only through the shared random
state: each generator's output and final state depend only on the cursor
and the draws from the cursor onward, so running one generator before
another changes the second's output only by advancing the shared cursor
(running the second after the first is literally running it from the
intermediate state). -/
theorem generators_depend_only_on_stream_suffix :
    ∀ f ∈ allGenerators, ∀ (n : Nat) (g g' : RandGen), agreeFrom g g' →
      (f n g).1 = (f n g').1 ∧ agreeFrom (f n g).2 (f n g').2 := by
  intro f hf n g g' h
  simp only [allGenerators, List.mem_cons, List.not_mem_nil, or_false] at hf
  rcases hf with rfl | rfl | rfl | rfl | rfl | rfl
  · exact resp_wrapDrillholes n g g' h
  · exact resp_wrapGeology n g g' h
  · exact resp_wrapTenements n g g' h
  · exact resp_wrapTracks n g g' h
  · exact resp_wrapAssays n g g' h
  · exact resp_wrapSurvey n g g' h

/-- Witness for the amended C3: two states with the same cursor that differ
only in draws already consumed give the same drillhole output. -/
theorem generators_depend_only_on_stream_suffix_witness :
    (wrapDrillholes 1 gAt5).1 = (wrapDrillholes 1 gAt5').1 := by
  have hagree : agreeFrom gAt5 gAt5' := by
    refine ⟨rfl, fun m hm => ?_⟩
    have hm' : (5 : Nat) ≤ m := hm
    show m = if m < 5 then 99 else m
    rw [if_neg (by omega)]
  exact (generators_depend_only_on_stream_suffix wrapDrillholes
    (List.mem_cons_self _ _) 1 gAt5 gAt5' hagree).1
